import Mathlib

/-!
Verification development for the contentful-pagebuilder repository.

Part 1 models the block-resolution and rendering pipeline (registry,
lookup, dispatch loop).  The component file BlockRenderer.astro is not
part of the extracted sources, so those definitions are modelled from
the specification, as their doc comments state.

Part 2 embeds the environment validation and the fetchContentful
helper from src/codegen.ts (lines 41 to 95) directly from the source.
-/

namespace PageBuilder

/-! ### Block renderer data model -/

/-- A rendering capability: a function from a fields payload to a
rendered fragment.  Payloads and fragments are abstracted as strings. -/
abbrev Renderer := String → String

/-- Modelled from the spec: the renderer registry is a mapping from
discriminator string to a rendering capability, represented as an
association list. -/
abbrev Registry := List (String × Renderer)

/-- A block record: a discriminator string (the GraphQL typename) plus
a fields payload. -/
structure Block where
  typename : String
  fields : String
deriving DecidableEq

/-- An observable effect of the dispatch loop: either a diagnostic for
an unknown block kind (kind name and position), or a network request.
The modelled loop never emits the network constructor; it exists so the
frame property is a statement rather than a typing triviality. -/
inductive Effect where
  | diagnostic (kind : String) (position : Nat)
  | networkRequest (target : String)
deriving DecidableEq

/-- Modelled from the spec: lookup of a discriminator in the registry;
pure, returns none for unknown kinds rather than failing. -/
def lookup : Registry → String → Option Renderer
  | [], _ => none
  | (k, r) :: rest, kind => if k = kind then some r else lookup rest kind

/-- Modelled from the spec: register(kind, renderer) adds an entry at
initialization and fails fatally (a configuration error) if the same
kind is registered twice. -/
def register (reg : Registry) (kind : String) (r : Renderer) :
    Except String Registry :=
  match lookup reg kind with
  | some _ => Except.error ("Duplicate block kind: " ++ kind)
  | none => Except.ok (reg ++ [(kind, r)])

/-- Modelled from the spec: the dispatch loop from a given position.
For each block in sequence order it looks the discriminator up in the
registry; a hit appends the rendered fragment, a miss emits a
diagnostic carrying the kind name and position and omits the block.
The first component is the block sequence as the loop leaves it. -/
def renderFrom (reg : Registry) : Nat → List Block →
    List Block × List String × List Effect
  | _, [] => ([], [], [])
  | pos, b :: rest =>
    let out := renderFrom reg (pos + 1) rest
    match lookup reg b.typename with
    | some r => (b :: out.1, r b.fields :: out.2.1, out.2.2)
    | none =>
      (b :: out.1, out.2.1, Effect.diagnostic b.typename pos :: out.2.2)

/-- Modelled from the spec: the block renderer turns an ordered block
sequence into an ordered fragment sequence, starting at position 0. -/
def renderBlocks (reg : Registry) (bs : List Block) :
    List Block × List String × List Effect :=
  renderFrom reg 0 bs

/-- The fragment a recognized block contributes, as an optional value:
none exactly when the discriminator is unknown. -/
def renderOne (reg : Registry) (b : Block) : Option String :=
  Option.map (fun r => r b.fields) (lookup reg b.typename)

/-! ### Sample registry and blocks for the concrete scenarios -/

/-- The two registered kinds of the repository, with renderers
producing the named fragments of the scenario. -/
def sampleRegistry : Registry :=
  [("HeroSection", fun _ => "renderedHero"),
   ("CallToActionSection", fun _ => "renderedCTA")]

/-- A HeroSection block. -/
def heroBlock : Block := { typename := "HeroSection", fields := "heroFields" }

/-- A block whose kind is not registered. -/
def unknownBlock : Block := { typename := "UnknownKind", fields := "mysteryFields" }

/-- A CallToActionSection block. -/
def ctaBlock : Block := { typename := "CallToActionSection", fields := "ctaFields" }

/-! ### Basic lemmas about the dispatch loop -/

theorem renderFrom_blocks (reg : Registry) :
    ∀ (pos : Nat) (bs : List Block), (renderFrom reg pos bs).1 = bs := by
  intro pos bs
  induction bs generalizing pos with
  | nil => rfl
  | cons b rest ih =>
    simp only [renderFrom]
    cases h : lookup reg b.typename with
    | none => simp [ih]
    | some r => simp [ih]

theorem renderFrom_fragments (reg : Registry) :
    ∀ (pos : Nat) (bs : List Block),
      (renderFrom reg pos bs).2.1 = bs.filterMap (renderOne reg) := by
  intro pos bs
  induction bs generalizing pos with
  | nil => rfl
  | cons b rest ih =>
    simp only [renderFrom, List.filterMap_cons, renderOne]
    cases h : lookup reg b.typename with
    | none => simp [h, ih]
    | some r => simp [h, ih]

theorem renderFrom_effects (reg : Registry) :
    ∀ (pos : Nat) (bs : List Block),
      ∀ e ∈ (renderFrom reg pos bs).2.2,
        ∃ (i : Nat) (hi : i < bs.length),
          e = Effect.diagnostic (bs.get ⟨i, hi⟩).typename (pos + i) ∧
          lookup reg (bs.get ⟨i, hi⟩).typename = none := by
  intro pos bs
  induction bs generalizing pos with
  | nil => intro e he; simp [renderFrom] at he
  | cons b rest ih =>
    intro e he
    simp only [renderFrom] at he
    cases h : lookup reg b.typename with
    | none =>
      simp only [h, List.mem_cons] at he
      rcases he with he | he
      · exact ⟨0, by simp, by simpa using he, by simpa using h⟩
      · rcases ih (pos + 1) e he with ⟨i, hi, hee, hl⟩
        exact ⟨i + 1, by simpa using Nat.succ_lt_succ hi,
          by simpa [Nat.add_assoc, Nat.add_comm 1 i] using hee, by simpa using hl⟩
    | some r =>
      simp only [h] at he
      rcases ih (pos + 1) e he with ⟨i, hi, hee, hl⟩
      exact ⟨i + 1, by simpa using Nat.succ_lt_succ hi,
        by simpa [Nat.add_assoc, Nat.add_comm 1 i] using hee, by simpa using hl⟩

theorem diagnostic_mem_renderFrom (reg : Registry) (b : Block)
    (hb : lookup reg b.typename = none) :
    ∀ (pos : Nat) (pre post : List Block),
      Effect.diagnostic b.typename (pos + pre.length) ∈
        (renderFrom reg pos (pre ++ b :: post)).2.2 := by
  intro pos pre
  induction pre generalizing pos with
  | nil =>
    intro post
    simp only [List.nil_append, renderFrom, hb, List.length_nil, Nat.add_zero]
    exact List.mem_cons_self _ _
  | cons p rest ih =>
    intro post
    simp only [List.cons_append, renderFrom]
    have step := ih (pos + 1) post
    have harith : pos + 1 + rest.length = pos + (rest.length + 1) := by omega
    rw [harith] at step
    cases hp : lookup reg p.typename with
    | none =>
      simp only [hp]
      exact List.mem_cons_of_mem _ step
    | some r =>
      simp only [hp]
      exact step

/-- Modelled from the spec: big-step execution relation of the dispatch
loop, used to state determinism of rendering as a property of the loop
rather than of a particular Lean function. -/
inductive Render (reg : Registry) : Nat → List Block → List String → List Effect → Prop where
  | nil (pos : Nat) : Render reg pos [] [] []
  | known (pos : Nat) (b : Block) (rest : List Block) (r : Renderer)
      (fs : List String) (es : List Effect) :
      lookup reg b.typename = some r →
      Render reg (pos + 1) rest fs es →
      Render reg pos (b :: rest) (r b.fields :: fs) es
  | unknown (pos : Nat) (b : Block) (rest : List Block)
      (fs : List String) (es : List Effect) :
      lookup reg b.typename = none →
      Render reg (pos + 1) rest fs es →
      Render reg pos (b :: rest) fs (Effect.diagnostic b.typename pos :: es)

theorem render_adequate (reg : Registry) :
    ∀ (bs : List Block) (pos : Nat),
      Render reg pos bs (renderFrom reg pos bs).2.1 (renderFrom reg pos bs).2.2 := by
  intro bs
  induction bs with
  | nil => intro pos; exact Render.nil pos
  | cons b rest ih =>
    intro pos
    cases h : lookup reg b.typename with
    | none =>
      have := Render.unknown pos b rest _ _ h (ih (pos + 1))
      simpa [renderFrom, h] using this
    | some r =>
      have := Render.known pos b rest r _ _ h (ih (pos + 1))
      simpa [renderFrom, h] using this

/-! ### Server state model for registry invariance -/

/-- A page record: title, slug, and the ordered block sequence. -/
structure PageRecord where
  title : String
  slug : String
  blocks : List Block

/-- Modelled from the spec: the process-wide server state; its only
shared component is the renderer registry, populated at startup. -/
structure ServerState where
  registry : Registry

/-- Modelled from the spec: one request-time operation renders one
page by running the dispatch loop against the current registry. -/
def handleRequest (s : ServerState) (p : PageRecord) :
    ServerState × List String :=
  (s, (renderBlocks s.registry p.blocks).2.1)

/-- Modelled from the spec: serving a sequence of requests threads the
server state through each request in order. -/
def serve : ServerState → List PageRecord → ServerState × List (List String)
  | s, [] => (s, [])
  | s, p :: ps =>
    let step := handleRequest s p
    let rest := serve step.1 ps
    (rest.1, step.2 :: rest.2)

/-! ### Embedding of src/codegen.ts lines 41 to 95 -/

/-- The process environment: each variable is absent (undefined) or a
string.  JavaScript code observes only truthiness and, when truthy,
the value; an empty string is falsy like an absent variable. -/
structure Env where
  spaceId : Option String
  deliveryToken : Option String
  previewToken : Option String
  environment : Option String

/-- JavaScript truthiness of an optional environment string:
undefined and the empty string are falsy. -/
def truthy : Option String → Bool
  | none => false
  | some s => if s = "" then false else true

/-- Template-literal interpolation of a possibly undefined value:
undefined prints as the string undefined. -/
def jsString : Option String → String
  | none => "undefined"
  | some s => s

/-- The module-level validation at the top of the source: it throws on
a missing space id, then on both API tokens missing. -/
def validateEnv (e : Env) : Except String Unit :=
  if !truthy e.spaceId then
    Except.error "Missing CONTENTFUL_SPACE_ID"
  else if !truthy e.deliveryToken && !truthy e.previewToken then
    Except.error "Missing Contentful API tokens"
  else
    Except.ok ()

/-- The exported CONTENTFUL_ENVIRONMENT constant: the variable, with
the string master as the fallback for a falsy value. -/
def contentfulEnvironment (e : Env) : String :=
  match e.environment with
  | none => "master"
  | some s => if s = "" then "master" else s

/-- The options argument of fetchContentful. -/
structure FetchOptions where
  preview : Option Bool
  logErrors : Option Bool

/-- The preview flag: options questionmark preview, defaulted to
false by the nullish coalescing operator. -/
def optPreview (options : Option FetchOptions) : Bool :=
  match Option.bind options FetchOptions.preview with
  | none => false
  | some b => b

/-- The logErrors option as the code reads it. -/
def optLogErrors (options : Option FetchOptions) : Option Bool :=
  Option.bind options FetchOptions.logErrors

/-- The bearer token the source selects: the preview token when the
preview flag is set, the delivery token otherwise. -/
def selectedToken (e : Env) (options : Option FetchOptions) : Option String :=
  if optPreview options then e.previewToken else e.deliveryToken

/-- The serialized POST body, a function of query and variables only. -/
def requestBody (q v : String) : String :=
  "query=" ++ q ++ ";variables=" ++ v

/-- The single HTTP request fetchContentful issues. -/
structure ContentfulRequest where
  endpoint : String
  authorization : String
  body : String
deriving DecidableEq

/-- The request the source constructs before calling fetch. -/
def mkRequest (e : Env) (q v : String) (options : Option FetchOptions) :
    ContentfulRequest where
  endpoint :=
    "https://graphql.contentful.com/content/v1/spaces/" ++ jsString e.spaceId ++
      "/environments/" ++ contentfulEnvironment e
  authorization := "Bearer " ++ jsString (selectedToken e options)
  body := requestBody q v

/-- The parsed JSON of a GraphQL response: an optional errors array of
messages and a data field. -/
structure GqlJson (Data : Type) where
  errors : Option (List String)
  data : Data
deriving DecidableEq

/-- The outcome of the awaited fetch: a thrown network error, or a
parsed response. -/
inductive NetworkResult (Data : Type) where
  | failure (message : String)
  | success (json : GqlJson Data)
deriving DecidableEq

/-- The console lines the error branch prints. -/
def errorLogLines (errs : List String) : List String :=
  "Contentful GraphQL errors:" :: errs.map (fun m => "- " ++ m)

/-- The fetchContentful helper of src/codegen.ts, embedded over a
network oracle standing for the one awaited fetch call.  The result is
the returned data or the thrown error message, paired with the console
lines printed. -/
def fetchContentful {Data : Type} (e : Env) (q v : String)
    (options : Option FetchOptions)
    (net : ContentfulRequest → NetworkResult Data) :
    Except String Data × List String :=
  match net (mkRequest e q v options) with
  | NetworkResult.failure msg => (Except.error msg, [])
  | NetworkResult.success json =>
    match json.errors with
    | some errs =>
      if errs.length = 0 then
        (Except.ok json.data, [])
      else if optLogErrors options = some false then
        (Except.error "Contentful GraphQL query failed", [])
      else
        (Except.error "Contentful GraphQL query failed", errorLogLines errs)
    | none => (Except.ok json.data, [])

/-- True on the error results of the embedded helper, false on the
returned data. -/
def isError {Data : Type} : Except String Data → Bool
  | Except.error _ => true
  | Except.ok _ => false

/-- Written from the words of the specification, for comparison with
the source: a fetch fails when the network request throws or when the
response carries a non-empty errors array. -/
def specFetchFailure {Data : Type} : NetworkResult Data → Bool
  | NetworkResult.failure _ => true
  | NetworkResult.success json =>
    match json.errors with
    | some errs => if errs.length = 0 then false else true
    | none => false

/-- The data field of a successful response, if any. -/
def resultData {Data : Type} : NetworkResult Data → Option Data
  | NetworkResult.failure _ => none
  | NetworkResult.success json => some json.data

/-- The data shape the page query produces: the items of the page
collection for the requested slug; an empty list means the page for
the slug is missing. -/
structure PageData where
  pageItems : List String
deriving DecidableEq

theorem lookup_append_single (reg : Registry) (k : String) (r : Renderer)
    (h : lookup reg k = none) : lookup (reg ++ [(k, r)]) k = some r := by
  induction reg with
  | nil => simp [lookup]
  | cons p rest ih =>
    cases p with
    | mk pk pr =>
      by_cases hk : pk = k
      · rw [lookup, if_pos hk] at h
        cases h
      · rw [lookup, if_neg hk] at h
        rw [List.cons_append, lookup, if_neg hk]
        exact ih h

/-! ### Claim theorems for the block renderer -/

/-- C1: for every input block sequence the output of the dispatch loop
is the order-preserving filter-map of the input over the registry, its
length is at most the input length, and the empty input yields the
empty output. -/
theorem c1_dispatch_is_filterMap (reg : Registry) (bs : List Block) :
    (renderBlocks reg bs).2.1 = bs.filterMap (renderOne reg) ∧
    (renderBlocks reg bs).2.1.length ≤ bs.length ∧
    renderBlocks reg [] = ([], [], []) := by
  refine ⟨renderFrom_fragments reg 0 bs, ?_, rfl⟩
  rw [show (renderBlocks reg bs).2.1 = (renderFrom reg 0 bs).2.1 from rfl,
    renderFrom_fragments reg 0 bs]
  exact List.length_filterMap_le _ _

/-- C2: a block whose discriminator is not registered contributes no
fragment, a diagnostic carrying its kind and position is emitted, the
other blocks render exactly as if the unknown block were absent, and
the concrete scenario HeroSection, UnknownKind, CallToActionSection
yields exactly renderedHero then renderedCTA. -/
theorem c2_unknown_kind_skipped (reg : Registry) (pre post : List Block)
    (b : Block) (h : lookup reg b.typename = none) :
    (renderBlocks reg (pre ++ b :: post)).2.1 = (renderBlocks reg (pre ++ post)).2.1 ∧
    Effect.diagnostic b.typename pre.length ∈ (renderBlocks reg (pre ++ b :: post)).2.2 ∧
    (renderBlocks sampleRegistry [heroBlock, unknownBlock, ctaBlock]).2.1
      = ["renderedHero", "renderedCTA"] := by
  refine ⟨?_, ?_, rfl⟩
  · rw [show (renderBlocks reg (pre ++ b :: post)).2.1
        = (renderFrom reg 0 (pre ++ b :: post)).2.1 from rfl,
      show (renderBlocks reg (pre ++ post)).2.1
        = (renderFrom reg 0 (pre ++ post)).2.1 from rfl,
      renderFrom_fragments, renderFrom_fragments]
    simp [List.filterMap_append, List.filterMap_cons, renderOne, h]
  · have hm := diagnostic_mem_renderFrom reg b h 0 pre post
    simpa using hm

theorem c2_unknown_kind_skipped_witness :
    lookup sampleRegistry unknownBlock.typename = none ∧
    ((renderBlocks sampleRegistry ([heroBlock] ++ unknownBlock :: [ctaBlock])).2.1
        = (renderBlocks sampleRegistry ([heroBlock] ++ [ctaBlock])).2.1 ∧
      Effect.diagnostic unknownBlock.typename ([heroBlock] : List Block).length ∈
        (renderBlocks sampleRegistry ([heroBlock] ++ unknownBlock :: [ctaBlock])).2.2 ∧
      (renderBlocks sampleRegistry [heroBlock, unknownBlock, ctaBlock]).2.1
        = ["renderedHero", "renderedCTA"]) :=
  ⟨rfl, c2_unknown_kind_skipped sampleRegistry [heroBlock] [ctaBlock] unknownBlock rfl⟩

/-- C4: a successful registration requires the kind to be new, makes
it looked up afterwards, and a second registration of the same kind
fails fatally with a duplicate configuration error; no silent
overwrite is possible. -/
theorem c4_duplicate_registration_fatal (reg reg2 : Registry) (k : String)
    (r : Renderer) (h : register reg k r = Except.ok reg2) :
    (∀ r2 : Renderer, register reg2 k r2
        = Except.error ("Duplicate block kind: " ++ k)) ∧
    lookup reg k = none ∧ lookup reg2 k = some r := by
  cases hl : lookup reg k with
  | some r0 =>
    rw [register, hl] at h
    cases h
  | none =>
    rw [register, hl] at h
    have hr : reg2 = reg ++ [(k, r)] := by
      injection h with h2
      exact h2.symm
    subst hr
    refine ⟨?_, rfl, lookup_append_single reg k r hl⟩
    intro r2
    rw [register, lookup_append_single reg k r hl]

theorem c4_duplicate_registration_fatal_witness :
    register ([] : Registry) "HeroSection" (fun _ => "renderedHero")
      = Except.ok [("HeroSection", fun _ => "renderedHero")] ∧
    ((∀ r2 : Renderer,
        register [("HeroSection", fun _ => "renderedHero")] "HeroSection" r2
          = Except.error ("Duplicate block kind: " ++ "HeroSection")) ∧
      lookup ([] : Registry) "HeroSection" = none ∧
      lookup [("HeroSection", fun _ => "renderedHero")] "HeroSection"
        = some (fun _ => "renderedHero")) :=
  ⟨rfl, c4_duplicate_registration_fatal [] [("HeroSection", fun _ => "renderedHero")]
    "HeroSection" (fun _ => "renderedHero") rfl⟩

/-- C5: the dispatch loop is deterministic: two executions of the
rendering relation on the same registry and block sequence produce the
same fragments and the same effects. -/
theorem c5_render_deterministic (reg : Registry) (pos : Nat) (bs : List Block)
    (fs1 fs2 : List String) (es1 es2 : List Effect)
    (h1 : Render reg pos bs fs1 es1) (h2 : Render reg pos bs fs2 es2) :
    fs1 = fs2 ∧ es1 = es2 := by
  induction h1 generalizing fs2 es2 with
  | nil p =>
    cases h2
    exact ⟨rfl, rfl⟩
  | known p b rest r fs es hl hr ih =>
    cases h2 with
    | known p2 b2 rest2 r2 fs2a es2a hl2 hr2 =>
      obtain ⟨hf, he⟩ := ih _ _ hr2
      rw [hl] at hl2
      injection hl2 with hr12
      rw [hf, he, hr12]
      exact ⟨rfl, rfl⟩
    | unknown p2 b2 rest2 fs2a es2a hl2 hr2 =>
      rw [hl] at hl2
      cases hl2
  | unknown p b rest fs es hl hr ih =>
    cases h2 with
    | known p2 b2 rest2 r2 fs2a es2a hl2 hr2 =>
      rw [hl] at hl2
      cases hl2
    | unknown p2 b2 rest2 fs2a es2a hl2 hr2 =>
      obtain ⟨hf, he⟩ := ih _ _ hr2
      rw [hf, he]
      exact ⟨rfl, rfl⟩

theorem c5_render_deterministic_witness :
    (renderBlocks sampleRegistry [heroBlock, unknownBlock, ctaBlock]).2.1
        = ["renderedHero", "renderedCTA"] ∧
    (renderBlocks sampleRegistry [heroBlock, unknownBlock, ctaBlock]).2.2
        = [Effect.diagnostic "UnknownKind" 1] :=
  c5_render_deterministic sampleRegistry 0 [heroBlock, unknownBlock, ctaBlock]
    _ ["renderedHero", "renderedCTA"] _ [Effect.diagnostic "UnknownKind" 1]
    (render_adequate sampleRegistry [heroBlock, unknownBlock, ctaBlock] 0)
    (Render.known 0 heroBlock [unknownBlock, ctaBlock] (fun _ => "renderedHero")
      ["renderedCTA"] [Effect.diagnostic "UnknownKind" 1] rfl
      (Render.unknown 1 unknownBlock [ctaBlock]
        ["renderedCTA"] [] rfl
        (Render.known 2 ctaBlock [] (fun _ => "renderedCTA") [] [] rfl
          (Render.nil 3))))

/-- C6: the dispatch loop leaves the block sequence unchanged, every
effect in its trace is a diagnostic for an unknown kind at its input
position, and no network request effect ever occurs in the trace. -/
theorem c6_frame_no_mutation_no_network (reg : Registry) (bs : List Block) :
    (renderBlocks reg bs).1 = bs ∧
    (∀ e ∈ (renderBlocks reg bs).2.2,
      ∃ (i : Nat) (hi : i < bs.length),
        e = Effect.diagnostic (bs.get ⟨i, hi⟩).typename i ∧
        lookup reg (bs.get ⟨i, hi⟩).typename = none) ∧
    (∀ t : String, Effect.networkRequest t ∉ (renderBlocks reg bs).2.2) := by
  refine ⟨renderFrom_blocks reg 0 bs, ?_, ?_⟩
  · intro e he
    rcases renderFrom_effects reg 0 bs e he with ⟨i, hi, hee, hl⟩
    exact ⟨i, hi, by simpa using hee, hl⟩
  · intro t ht
    rcases renderFrom_effects reg 0 bs _ ht with ⟨i, hi, hee, hl⟩
    cases hee

/-- C7: the registry is invariant across request handling: serving any
sequence of page requests leaves the registry of the server state
unchanged, and every request output is computed against the initial
registry. -/
theorem c7_registry_readonly (s : ServerState) (ps : List PageRecord) :
    (serve s ps).1.registry = s.registry ∧
    (serve s ps).2 = ps.map (fun p => (renderBlocks s.registry p.blocks).2.1) := by
  induction ps with
  | nil => exact ⟨rfl, rfl⟩
  | cons p ps ih =>
    simp only [serve, handleRequest, List.map_cons]
    exact ⟨ih.1, by rw [ih.2]⟩

/-! ### Concrete environments and network oracles for the scenarios -/

/-- An environment with every variable set. -/
def cexEnv : Env where
  spaceId := some "spaceid"
  deliveryToken := some "deliverytok"
  previewToken := some "previewtok"
  environment := some "master"

/-- A network oracle whose response is error-free but carries an empty
page collection: the page for the slug is missing. -/
def missingPageNet : ContentfulRequest → NetworkResult PageData :=
  fun _ => NetworkResult.success { errors := none, data := { pageItems := [] } }

/-- A network oracle whose response carries a non-empty GraphQL errors
array. -/
def gqlErrorNet : ContentfulRequest → NetworkResult PageData :=
  fun _ =>
    NetworkResult.success { errors := some ["boom"], data := { pageItems := ["home"] } }

/-- An environment with every variable absent. -/
def bothMissingEnv : Env where
  spaceId := none
  deliveryToken := none
  previewToken := none
  environment := none

/-- An environment providing the preview token but not the delivery
token. -/
def previewOnlyEnv : Env where
  spaceId := some "spaceid"
  deliveryToken := none
  previewToken := some "previewtok"
  environment := none

theorem fetch_fst_congr {Data : Type} (e : Env) (q v : String)
    (o1 o2 : Option FetchOptions) (net : ContentfulRequest → NetworkResult Data)
    (hreq : mkRequest e q v o1 = mkRequest e q v o2) :
    (fetchContentful e q v o1 net).1 = (fetchContentful e q v o2 net).1 := by
  simp only [fetchContentful, hreq]
  cases net (mkRequest e q v o2) with
  | failure msg => rfl
  | success json =>
    cases hj : json.errors with
    | none => simp [hj]
    | some errs =>
      by_cases hlen : errs.length = 0
      · simp [hj, hlen]
      · by_cases h1 : optLogErrors o1 = some false <;>
          by_cases h2 : optLogErrors o2 = some false <;>
          simp [hj, hlen, h1, h2]

/-! ### Claim theorems for the fetch helper -/

/-- C3 counterexample: a response with no GraphQL errors whose data
carries an empty page collection, that is a missing page for the slug,
makes fetchContentful return the data normally rather than raise an
error, so the missing-page case is not a failure of this helper. -/
theorem c3_missing_page_returns_ok :
    (fetchContentful cexEnv "PageBySlug" "slug" none missingPageNet).1
      = Except.ok { pageItems := ([] : List String) } ∧
    isError (fetchContentful cexEnv "PageBySlug" "slug" none missingPageNet).1
      = false ∧
    ({ pageItems := ([] : List String) } : PageData).pageItems.length = 0 :=
  ⟨rfl, rfl, rfl⟩

/-- C3 (amended): fetchContentful raises a single terminal error,
returning no data, exactly when the single fetch fails, that is when
the network request throws or when the response carries a non-empty
errors array; otherwise it returns the data field of the response,
also when that data describes a missing page.  The outcome is a
function of the one request it constructs, so no retry occurs. -/
theorem c3_error_iff_fetch_failure {Data : Type} (e : Env) (q v : String)
    (o : Option FetchOptions) (net : ContentfulRequest → NetworkResult Data) :
    (isError (fetchContentful e q v o net).1 = true ↔
      specFetchFailure (net (mkRequest e q v o)) = true) ∧
    (∀ d : Data, specFetchFailure (net (mkRequest e q v o)) = false →
      resultData (net (mkRequest e q v o)) = some d →
      (fetchContentful e q v o net).1 = Except.ok d) ∧
    (∀ net2 : ContentfulRequest → NetworkResult Data,
      net2 (mkRequest e q v o) = net (mkRequest e q v o) →
      fetchContentful e q v o net2 = fetchContentful e q v o net) := by
  refine ⟨?_, ?_, ?_⟩
  · simp only [fetchContentful]
    cases net (mkRequest e q v o) with
    | failure msg => simp [isError, specFetchFailure]
    | success json =>
      cases hj : json.errors with
      | none => simp [isError, specFetchFailure, hj]
      | some errs =>
        by_cases hlen : errs.length = 0
        · simp [isError, specFetchFailure, hj, hlen]
        · by_cases hlog : optLogErrors o = some false <;>
            simp [isError, specFetchFailure, hj, hlen, hlog]
  · intro d hfail hdata
    cases hr : net (mkRequest e q v o) with
    | failure msg => simp [specFetchFailure, hr] at hfail
    | success json =>
      cases hj : json.errors with
      | none =>
        have hd : json.data = d := by simpa [resultData, hr] using hdata
        simp [fetchContentful, hr, hj, hd]
      | some errs =>
        have hlen : errs.length = 0 := by
          by_contra hne
          simp [specFetchFailure, hr, hj, hne] at hfail
        have hd : json.data = d := by simpa [resultData, hr] using hdata
        simp [fetchContentful, hr, hj, hlen, hd]
  · intro net2 hagree
    simp only [fetchContentful, hagree]

theorem c3_error_iff_fetch_failure_witness :
    isError (fetchContentful cexEnv "PageBySlug" "slug" none gqlErrorNet).1
      = true ∧
    (fetchContentful cexEnv "PageBySlug" "slug" none missingPageNet).1
      = Except.ok { pageItems := ([] : List String) } ∧
    fetchContentful cexEnv "PageBySlug" "slug" none
        (fun _ => missingPageNet { endpoint := "", authorization := "", body := "" })
      = fetchContentful cexEnv "PageBySlug" "slug" none missingPageNet :=
  ⟨(c3_error_iff_fetch_failure cexEnv "PageBySlug" "slug" none gqlErrorNet).1.mpr rfl,
   (c3_error_iff_fetch_failure cexEnv "PageBySlug" "slug" none missingPageNet).2.1
     { pageItems := [] } rfl rfl,
   (c3_error_iff_fetch_failure cexEnv "PageBySlug" "slug" none missingPageNet).2.2
     (fun _ => missingPageNet { endpoint := "", authorization := "", body := "" }) rfl⟩

/-- C8: the authorization header carries the selected token; the
selected token is the preview token exactly when options.preview is
some true, and the delivery token otherwise, in particular when the
options argument or the preview field is absent. -/
theorem c8_token_selection (e : Env) (q v : String) (o : Option FetchOptions) :
    (mkRequest e q v o).authorization = "Bearer " ++ jsString (selectedToken e o) ∧
    selectedToken e o
      = (if Option.bind o FetchOptions.preview = some true then e.previewToken
          else e.deliveryToken) ∧
    selectedToken e none = e.deliveryToken ∧
    (∀ lo : Option Bool,
      selectedToken e (some { preview := none, logErrors := lo })
        = e.deliveryToken) := by
  refine ⟨rfl, ?_, rfl, fun lo => rfl⟩
  cases o with
  | none => rfl
  | some opts =>
    cases hp : opts.preview with
    | none => simp [selectedToken, optPreview, Option.bind, hp]
    | some b => cases b <;> simp [selectedToken, optPreview, Option.bind, hp]

/-- C9 counterexample: with the space id and both tokens absent,
module initialization throws the space id error although both tokens
are unset; the token error message is not thrown, so the token check
is reached only when the space id check passes. -/
theorem c9_precedence_counterexample :
    validateEnv bothMissingEnv = Except.error "Missing CONTENTFUL_SPACE_ID" ∧
    truthy bothMissingEnv.deliveryToken = false ∧
    truthy bothMissingEnv.previewToken = false ∧
    validateEnv bothMissingEnv ≠ Except.error "Missing Contentful API tokens" := by
  refine ⟨rfl, rfl, rfl, ?_⟩
  intro hcontra
  rw [show validateEnv bothMissingEnv
      = Except.error "Missing CONTENTFUL_SPACE_ID" from rfl] at hcontra
  injection hcontra with hmsg
  exact absurd hmsg (by decide)

/-- C9 (amended): initialization throws the space id error exactly
when the space id is falsy; it throws the token error exactly when the
space id is truthy and both tokens are falsy, the space id check
running first; a configuration with the space id and at least one
token passes validation; and with an absent delivery token the fetch
helper selects the absent token whenever preview is left unset. -/
theorem c9_env_validation (e : Env) :
    (validateEnv e = Except.error "Missing CONTENTFUL_SPACE_ID" ↔
      truthy e.spaceId = false) ∧
    (validateEnv e = Except.error "Missing Contentful API tokens" ↔
      (truthy e.spaceId = true ∧ truthy e.deliveryToken = false ∧
        truthy e.previewToken = false)) ∧
    (truthy e.spaceId = true →
      (truthy e.deliveryToken = true ∨ truthy e.previewToken = true) →
      validateEnv e = Except.ok ()) ∧
    (e.deliveryToken = none →
      selectedToken e (some { preview := none, logErrors := none }) = none ∧
      selectedToken e none = none) := by
  cases hs : truthy e.spaceId <;>
    cases hd : truthy e.deliveryToken <;>
    cases hp : truthy e.previewToken <;>
    refine ⟨by simp [validateEnv, hs, hd, hp], by simp [validateEnv, hs, hd, hp],
      by simp [validateEnv, hs, hd, hp], ?_⟩ <;>
    · intro hdel
      exact ⟨by simp [selectedToken, optPreview, hdel],
        by simp [selectedToken, optPreview, hdel]⟩

theorem c9_env_validation_witness :
    truthy previewOnlyEnv.spaceId = true ∧
    truthy previewOnlyEnv.previewToken = true ∧
    previewOnlyEnv.deliveryToken = none ∧
    validateEnv previewOnlyEnv = Except.ok () ∧
    selectedToken previewOnlyEnv (some { preview := none, logErrors := none })
      = none ∧
    selectedToken previewOnlyEnv none = none :=
  ⟨rfl, rfl, rfl,
    (c9_env_validation previewOnlyEnv).2.2.1 rfl (Or.inr rfl),
    ((c9_env_validation previewOnlyEnv).2.2.2 rfl).1,
    ((c9_env_validation previewOnlyEnv).2.2.2 rfl).2⟩

/-- C10: the logErrors option influences neither the request sent nor
the returned or thrown outcome: two runs differing only in logErrors
build the same request and produce the same result, and a run with
options absent matches a run with only logErrors supplied. -/
theorem c10_logErrors_only_logs {Data : Type} (e : Env) (q v : String)
    (p : Option Bool) (l1 l2 : Option Bool)
    (net : ContentfulRequest → NetworkResult Data) :
    mkRequest e q v (some { preview := p, logErrors := l1 })
      = mkRequest e q v (some { preview := p, logErrors := l2 }) ∧
    (fetchContentful e q v (some { preview := p, logErrors := l1 }) net).1
      = (fetchContentful e q v (some { preview := p, logErrors := l2 }) net).1 ∧
    (fetchContentful e q v (some { preview := none, logErrors := l1 }) net).1
      = (fetchContentful e q v none net).1 :=
  ⟨rfl,
    fetch_fst_congr e q v (some { preview := p, logErrors := l1 })
      (some { preview := p, logErrors := l2 }) net rfl,
    fetch_fst_congr e q v (some { preview := none, logErrors := l1 }) none net rfl⟩

end PageBuilder
